import Mathlib

/-!
# Verification of the Stock-Financial-Analysis-Library metric engine

Shallow embedding of the repository's metric modules over a model of
pandas statement tables.  Numbers are modelled as rationals (`ℚ`); a
pandas cell is `Cell` (NaN/None, string, or number); a DataFrame is a
`Table` (a column-name list plus rows of cells).  Python's `float(x)`
on strings is modelled by `parseDecimal`, `round(x, 4)` by `round4`,
and Python truthiness of the values the code tests by `PyVal.falsy`.

Each module's per-period computation and windowing loop is translated
from the source files under `src/stock_tool/`, and the orchestrator's
parallel/serial category dispatch from `all_function_demo_1.py`.
-/

namespace StockTool

/-- A pandas cell: missing (NaN/None), a string, or a numeric value. -/
inductive Cell where
  | na : Cell
  | str : String → Cell
  | num : ℚ → Cell
deriving DecidableEq, Repr

/-- A Python value as returned by the `get_value`-style helpers: either a
float (modelled as `ℚ`) or a string (the string defaults such as `''`). -/
inductive PyVal where
  | num : ℚ → PyVal
  | str : String → PyVal
deriving DecidableEq, Repr

/-- Python truthiness test (`if not report_date`) for the values that reach
it in the source: `0.0` and `''` are falsy. -/
def PyVal.falsy : PyVal → Bool
  | .num q => q == 0
  | .str s => s == ""

/-- Numeric view of a `PyVal`; the helpers below only produce `.num` when a
numeric default is supplied, so the `.str` branch is dead there. -/
def PyVal.toNum : PyVal → ℚ
  | .num q => q
  | .str _ => 0

/-- Digit accumulator for the decimal parser. -/
def digitsToNat (cs : List Char) : ℕ :=
  cs.foldl (fun a c => 10 * a + (c.toNat - 48)) 0

/-- Model of Python `float(s)` on the strings that occur in statement cells:
an optional sign, then `digits`, `digits.digits`, `digits.` or `.digits`.
(Exponents, `inf`/`nan` and surrounding whitespace are out of scope for the
data this library reads.)  Returns `none` when `float` would raise. -/
def parseDecimal (s : String) : Option ℚ :=
  let cs := s.data
  let (sgn, rest) : ℚ × List Char :=
    match cs with
    | '-' :: r => (-1, r)
    | '+' :: r => (1, r)
    | r => (1, r)
  let ip := rest.takeWhile (fun c => c ≠ '.')
  let rem := rest.dropWhile (fun c => c ≠ '.')
  match rem with
  | [] =>
      if ip ≠ [] ∧ ip.all Char.isDigit then
        some (sgn * (digitsToNat ip : ℚ))
      else none
  | '.' :: fp =>
      if (ip ≠ [] ∨ fp ≠ []) ∧ ip.all Char.isDigit ∧ fp.all Char.isDigit then
        some (sgn * ((digitsToNat ip : ℚ) + (digitsToNat fp : ℚ) / (10 : ℚ) ^ fp.length))
      else none
  | _ => none

/-- Python `float(value)` on a cell (`try: float(value) except: ...`):
numbers pass through, strings go through the decimal parser, NaN fails. -/
def tryFloat : Cell → Option ℚ
  | .na => none
  | .num q => some q
  | .str s => parseDecimal s

/-- `pd.isna(value)` on a cell. -/
def Cell.isNa : Cell → Bool
  | .na => true
  | _ => false

/-- A statement table: canonical/localised column names and per-period rows
of cells (row 0 is the most recent reporting period, as delivered by the
data provider). -/
structure Table where
  cols : List String
  rows : List (List Cell)
deriving DecidableEq, Repr

/-- `df.iloc[idx][col]` / `df.loc[idx, col]`: the cell at a row position and
column name, when both exist. -/
def Table.getCell (t : Table) (idx : ℕ) (col : String) : Option Cell := do
  let j ← t.cols.indexOf? col
  let r ← t.rows.get? idx
  r.get? j

/-- Bilingual column resolution (`get_column` in the analyzer classes):
the localised name first, then the canonical English name. -/
def getColumn (t : Table) (cn en : String) : Option String :=
  if t.cols.contains cn then some cn
  else if t.cols.contains en then some en
  else none

/-- `get_value` of the CashFlow/DuPont/Profitability/Valuation analyzers:
resolve the column bilingually; if it exists and the row index is in range,
return `float(value)` unless the value is NaN, `''` or unparseable, in which
case (and in every failure case) return the caller-supplied default. -/
def getValue (t : Table) (idx : ℕ) (cn en : String) (default : PyVal) : PyVal :=
  match getColumn t cn en with
  | none => default
  | some col =>
    if idx < t.rows.length then
      match t.getCell idx col with
      | none => default
      | some c =>
        if !c.isNa ∧ c ≠ .str "" then
          match tryFloat c with
          | some q => .num q
          | none => default
        else default
    else default

/-- `get_value` at a numeric call site (default `0.0`). -/
def getNum (t : Table) (idx : ℕ) (cn en : String) : ℚ :=
  (getValue t idx cn en (.num 0)).toNum

/-- `AltmanZScore._safe_get_value`: single (English) column name; returns the
default on a missing column, a missing row label, NaN/`''`/None, or a failed
`float` conversion (the enclosing `try/except` catches everything else). -/
def safeGet (t : Table) (idx : ℕ) (col : String) (default : PyVal) : PyVal :=
  if t.cols.contains col then
    match t.getCell idx col with
    | none => default
    | some c =>
      if !c.isNa ∧ c ≠ .str "" then
        match tryFloat c with
        | some q => .num q
        | none => default
      else default
  else default

/-- `_safe_get_value` at a numeric call site (default `0`). -/
def safeGetNum (t : Table) (idx : ℕ) (col : String) : ℚ :=
  (safeGet t idx col (.num 0)).toNum

/-- `BeneishMScore.get_value`: bilingual lookup, `0.0` on every failure. -/
def bGet (t : Table) (idx : ℕ) (cn en : String) : ℚ :=
  match getColumn t cn en with
  | none => 0
  | some col =>
    if idx < t.rows.length then
      match t.getCell idx col with
      | none => 0
      | some c =>
        if !c.isNa ∧ c ≠ .str "" then
          match tryFloat c with
          | some q => q
          | none => 0
        else 0
    else 0

/-- Fuel-driven most-significant-first decimal digits (structural recursion
so that terms evaluate inside the kernel). -/
def natDigitsAux : ℕ → ℕ → List Char
  | 0, _ => []
  | fuel + 1, n =>
    if n < 10 then [Nat.digitChar n]
    else natDigitsAux fuel (n / 10) ++ [Nat.digitChar (n % 10)]

/-- Decimal digit characters of a natural number. -/
def natDigits (n : ℕ) : List Char := natDigitsAux (n + 1) n

/-- Decimal rendering of a natural number. -/
def natRepr (n : ℕ) : String := String.mk (natDigits n)

/-- Decimal rendering of an integer (Python `str(int)`). -/
def intRepr (n : ℤ) : String :=
  if n < 0 then "-" ++ natRepr n.natAbs else natRepr n.natAbs

/-- Round to the nearest integer, `⌊q + 1/2⌋`, computed by floor division
so that it evaluates inside the kernel. -/
def qround (q : ℚ) : ℤ := Int.fdiv (2 * q.num + q.den) (2 * q.den)

/-- Python `round(x, 4)` on the rationals of this model (float banker's
rounding is modelled by rounding to the nearest 1/10000). -/
def round4 (q : ℚ) : ℚ := (qround (q * 10000) : ℚ) / 10000

/-- Python `round(x, 2)`. -/
def round2 (q : ℚ) : ℚ := (qround (q * 100) : ℚ) / 100

/-- Left-pad a digit list with zeros to width `w`. -/
def padZeros (w : ℕ) (cs : List Char) : List Char :=
  List.replicate (w - cs.length) '0' ++ cs

/-- Deterministic model of the Python format `f"{x:.4f}"` on the rationals
of this model. -/
def fmt4 (q : ℚ) : String :=
  let n := qround (q * 10000)
  let a := n.natAbs
  (if n < 0 then "-" else "") ++ natRepr (a / 10000) ++ "." ++
    String.mk (padZeros 4 (natDigits (a % 10000)))

/-- Deterministic model of `f"{x:+.4f}"` (explicit sign). -/
def fmtPlus4 (q : ℚ) : String :=
  let n := qround (q * 10000)
  let a := n.natAbs
  (if n < 0 then "-" else "+") ++ natRepr (a / 10000) ++ "." ++
    String.mk (padZeros 4 (natDigits (a % 10000)))

/-- Model of Python `str(float)` for the values interpolated raw into the
reports: integral values render with a trailing `.0`, others through the
4-decimal format (an approximation of the float repr). -/
def pyFloatRepr (q : ℚ) : String :=
  if q.den = 1 then intRepr q.num ++ ".0" else fmt4 q

/-- How a `PyVal` interpolates into an f-string. -/
def PyVal.render : PyVal → String
  | .num q => pyFloatRepr q
  | .str s => s

/-- Mean of a list of rationals (`Series.mean`). -/
def listMean (xs : List ℚ) : ℚ := xs.sum / (xs.length : ℚ)

/-- Maximum of a list (`Series.max`), 0 on the empty list. -/
def listMax : List ℚ → ℚ
  | [] => 0
  | x :: xs => xs.foldl max x

/-- Minimum of a list (`Series.min`), 0 on the empty list. -/
def listMin : List ℚ → ℚ
  | [] => 0
  | x :: xs => xs.foldl min x

/-- Sample variance with one degree of freedom (`Series.var`, `ddof=1`). -/
def sampleVar (xs : List ℚ) : ℚ :=
  ((xs.map (fun x => (x - listMean xs) ^ 2)).sum) / ((xs.length : ℚ) - 1)

/-- Deterministic rational approximation of the float square root used by
`Series.std`: `Nat.sqrt` on the value scaled by `10^8`, giving four exact
decimal places. -/
def qSqrtApprox (q : ℚ) : ℚ :=
  if q ≤ 0 then 0
  else (Nat.sqrt (Int.fdiv ((q * 100000000).num) ((q * 100000000).den : ℤ)).toNat : ℚ) / 10000

/-- Model of `f"{series.std():.4f}"`: pandas sample std is NaN (rendered
`nan`) on fewer than two values. -/
def sampleStdStr (xs : List ℚ) : String :=
  if xs.length ≤ 1 then "nan" else fmt4 (qSqrtApprox (sampleVar xs))

/-- `"=" * 80`. -/
def bar80 : String := String.mk (List.replicate 80 '=')

/-! ## Gross margin (`ProfitabilityAnalysis.analyze_gross_margin`) -/

/-- One row of the gross-margin result table. -/
structure GMRow where
  reportDate : PyVal
  grossMargin : ℚ
  yoyChange : ℚ
  qoqChange : ℚ
  revenue : ℚ
  cost : ℚ
  grossProfit : ℚ
deriving DecidableEq, Repr

/-- The loop body of `analyze_gross_margin` for one period: `none` models
`continue` (empty report date or zero revenue). -/
def gmRow (income : Table) (idx : ℕ) : Option GMRow :=
  let reportDate := getValue income idx "报告日" "Report Date" (.str "")
  if reportDate.falsy then none
  else
    let revenue := getNum income idx "营业收入" "Operating Revenue"
    let cost := getNum income idx "营业成本" "Operating Costs"
    if revenue = 0 then none
    else
      let grossMargin := (revenue - cost) / revenue * 100
      let yoyChange :=
        if 4 ≤ idx ∧ idx + 4 < income.rows.length then
          let prevYearRevenue := getNum income (idx + 4) "营业收入" "Operating Revenue"
          let prevYearCost := getNum income (idx + 4) "营业成本" "Operating Costs"
          if prevYearRevenue > 0 then
            grossMargin - (prevYearRevenue - prevYearCost) / prevYearRevenue * 100
          else 0
        else 0
      let qoqChange :=
        if idx < income.rows.length - 1 then
          let prevQuarterRevenue := getNum income (idx + 1) "营业收入" "Operating Revenue"
          let prevQuarterCost := getNum income (idx + 1) "营业成本" "Operating Costs"
          if prevQuarterRevenue > 0 then
            grossMargin - (prevQuarterRevenue - prevQuarterCost) / prevQuarterRevenue * 100
          else 0
        else 0
      some
        { reportDate := reportDate
          grossMargin := round4 grossMargin
          yoyChange := round4 yoyChange
          qoqChange := round4 qoqChange
          revenue := revenue, cost := cost, grossProfit := revenue - cost }

/-- `analyze_gross_margin`'s loop: at most the most recent
`min(12, len(income))` periods. -/
def grossMarginTable (income : Table) : List GMRow :=
  (List.range (min 12 income.rows.length)).filterMap (gmRow income)

/-- The detailed-data block: a deterministic model of
`results_df[display_cols].to_string(index=False)` (pandas column alignment
abstracted to two-space separation). -/
def gmDetailTable (results : List GMRow) : String :=
  String.intercalate "\n"
    (("报告日 (Report Date)  毛利率 (Gross Margin %)  同比变化 (YoY Change %)  环比变化 (QoQ Change %)") ::
      results.map (fun r =>
        s!"{r.reportDate.render}  {fmt4 r.grossMargin}  {fmt4 r.yoyChange}  {fmt4 r.qoqChange}"))

/-- The report text of `analyze_gross_margin` (source lines 152–182); the
generation timestamp `datetime.now().strftime(...)` is the explicit `now`
argument. -/
def grossMarginReport (stockCode : String) (results : List GMRow) (now : String) : String :=
  let header : List String :=
    [bar80,
     "毛利率分析报告 - Gross Margin Analysis Report",
     s!"股票代码: {stockCode}",
     s!"生成时间: {now}",
     bar80,
     ""]
  let body : List String :=
    match results with
    | [] => []
    | latest :: _ =>
      let margins := results.map GMRow.grossMargin
      ["【最新数据】",
       s!"报告日期: {latest.reportDate.render}",
       s!"毛利率: {fmt4 latest.grossMargin}%",
       s!"同比变化: {fmtPlus4 latest.yoyChange}%",
       s!"环比变化: {fmtPlus4 latest.qoqChange}%",
       "",
       "【统计数据】",
       s!"平均毛利率: {fmt4 (listMean margins)}%",
       s!"最高毛利率: {fmt4 (listMax margins)}%",
       s!"最低毛利率: {fmt4 (listMin margins)}%",
       s!"标准差: {sampleStdStr margins}%",
       "",
       "【详细数据】",
       gmDetailTable results]
  String.intercalate "\n" (header ++ body ++ ["", bar80])

/-- `analyze_gross_margin(stock_code, ...)` on already-normalised tables:
the pair (result table, report text); the wall clock enters only through
`now`. -/
def analyzeGrossMargin (stockCode : String) (income : Table) (now : String) :
    List GMRow × String :=
  (grossMarginTable income, grossMarginReport stockCode (grossMarginTable income) now)

/-! ## DuPont 3-factor (`DuPontAnalysis.calculate_roe_3factor`) -/

/-- One row of the 3-factor DuPont result table. -/
structure Roe3Row where
  reportDate : PyVal
  roe : ℚ
  roeCalculated : ℚ
  netProfitMargin : ℚ
  totalAssetTurnover : ℚ
  equityMultiplier : ℚ
  netProfit : ℚ
  operatingRevenue : ℚ
  avgTotalAssets : ℚ
  avgShareholdersEquity : ℚ
deriving DecidableEq, Repr

/-- The loop body of `calculate_roe_3factor` for one period. -/
def roe3Row (asset income : Table) (idx : ℕ) : Option Roe3Row :=
  let reportDate := getValue income idx "报告日" "Report Date" (.str "")
  if reportDate.falsy then none
  else
    let netProfit := getNum income idx "归属于母公司所有者的净利润"
      "Net Profit Attributable to Parent"
    let operatingRevenue := getNum income idx "营业收入" "Operating Revenue"
    let totalAssets := getNum asset idx "资产总计" "Total Assets"
    let shareholdersEquity := getNum asset idx "归属于母公司股东权益合计"
      "Total Equity Attributable to Shareholders of the Parent Company"
    if operatingRevenue = 0 ∨ totalAssets = 0 ∨ shareholdersEquity = 0 then none
    else
      let avgTotalAssets :=
        if idx < asset.rows.length - 1 then
          let prevTotalAssets := getNum asset (idx + 1) "资产总计" "Total Assets"
          if prevTotalAssets > 0 then (totalAssets + prevTotalAssets) / 2 else totalAssets
        else totalAssets
      let avgShareholdersEquity :=
        if idx < asset.rows.length - 1 then
          let prevShareholdersEquity := getNum asset (idx + 1) "归属于母公司股东权益合计"
            "Total Equity Attributable to Shareholders of the Parent Company"
          if prevShareholdersEquity > 0 then
            (shareholdersEquity + prevShareholdersEquity) / 2
          else shareholdersEquity
        else shareholdersEquity
      let netProfitMargin :=
        if operatingRevenue > 0 then netProfit / operatingRevenue * 100 else 0
      let totalAssetTurnover :=
        if avgTotalAssets > 0 then operatingRevenue / avgTotalAssets else 0
      let equityMultiplier :=
        if avgShareholdersEquity > 0 then avgTotalAssets / avgShareholdersEquity else 0
      let roe :=
        if avgShareholdersEquity > 0 then netProfit / avgShareholdersEquity * 100 else 0
      let roeCalculated :=
        netProfitMargin / 100 * totalAssetTurnover * equityMultiplier * 100
      some
        { reportDate := reportDate
          roe := round4 roe, roeCalculated := round4 roeCalculated
          netProfitMargin := round4 netProfitMargin
          totalAssetTurnover := round4 totalAssetTurnover
          equityMultiplier := round4 equityMultiplier
          netProfit := netProfit, operatingRevenue := operatingRevenue
          avgTotalAssets := avgTotalAssets
          avgShareholdersEquity := avgShareholdersEquity }

/-- `calculate_roe_3factor`: the loop is capped at
`max_periods = min(12, len(income), len(asset))`. -/
def calculateRoe3Factor (asset income : Table) : List Roe3Row :=
  (List.range (min 12 (min income.rows.length asset.rows.length))).filterMap
    (roe3Row asset income)

/-! ## Operating cash-flow quality
(`CashFlowAnalysis.analyze_operating_cashflow_quality`) -/

/-- One row of the operating-cash-flow-quality result table. -/
structure OQRow where
  reportDate : PyVal
  operatingCf : ℚ
  netProfit : ℚ
  cfToProfitRatio : ℚ
  accrual : ℚ
  accrualRatio : ℚ
  yoyCfChange : ℚ
deriving DecidableEq, Repr

/-- The loop body of `analyze_operating_cashflow_quality` for one period. -/
def opQualityRow (asset income cashflow : Table) (idx : ℕ) : Option OQRow :=
  let reportDate := getValue cashflow idx "报告日" "Report Date" (.str "")
  if reportDate.falsy then none
  else
    let operatingCf := getNum cashflow idx "经营活动产生的现金流量净额"
      "Net Cash Flow from Operating Activities"
    let netProfit := getNum income idx "归属于母公司所有者的净利润"
      "Net Profit Attributable to Parent"
    let cfToProfitRatio := if netProfit ≠ 0 then operatingCf / netProfit else 0
    let accrual := netProfit - operatingCf
    let totalAssets := getNum asset idx "资产总计" "Total Assets"
    let accrualRatio := if totalAssets > 0 then accrual / totalAssets * 100 else 0
    let yoyCfChange :=
      if 4 ≤ idx ∧ idx + 4 < cashflow.rows.length then
        let prevYearCf := getNum cashflow (idx + 4) "经营活动产生的现金流量净额"
          "Net Cash Flow from Operating Activities"
        if prevYearCf ≠ 0 then (operatingCf - prevYearCf) / |prevYearCf| * 100 else 0
      else 0
    some
      { reportDate := reportDate
        operatingCf := operatingCf, netProfit := netProfit
        cfToProfitRatio := round4 cfToProfitRatio
        accrual := accrual
        accrualRatio := round4 accrualRatio
        yoyCfChange := round4 yoyCfChange }

/-- `analyze_operating_cashflow_quality`'s loop:
`max_periods = min(12, len(cashflow), len(income))`. -/
def opQualityTable (asset income cashflow : Table) : List OQRow :=
  (List.range (min 12 (min cashflow.rows.length income.rows.length))).filterMap
    (opQualityRow asset income cashflow)

/-! ## Altman Z-Score (`AltmanZScore.calculate_zscore`) -/

/-- One row of the Altman result table (the round-4 displayed ratios plus
the raw financial figures, as appended by `calculate_zscore`). -/
structure ZRow where
  reportDate : PyVal
  zScore : ℚ
  x1 : ℚ
  x2 : ℚ
  x3 : ℚ
  x4 : ℚ
  x5 : ℚ
  riskLevel : String
  riskDesc : String
  totalAssets : ℚ
  workingCapital : ℚ
  retainedEarnings : ℚ
  ebit : ℚ
  shareholdersEquity : ℚ
  totalLiabilities : ℚ
  operatingRevenue : ℚ
deriving DecidableEq, Repr

/-- The risk-level strings of `calculate_zscore`. -/
def safeZoneStr : String := "安全区域 (Safe Zone)"

def greyZoneStr : String := "灰色区域 (Grey Zone)"

def distressZoneStr : String := "危险区域 (Distress Zone)"

/-- The body of `AltmanZScore.calculate_zscore` for one reporting period:
`none` models the `continue` paths (empty report date or zero total
assets; the blanket `except` never fires in this arithmetic). -/
def calcZscoreRow (asset income : Table) (idx : ℕ) : Option ZRow :=
  let reportDate := safeGet asset idx "报告日" (.str "")
  if reportDate.falsy then none
  else
    let totalAssets := safeGetNum asset idx "Total Assets"
    if totalAssets = 0 then none
    else
      let currentAssets := safeGetNum asset idx "Total Current Assets"
      let currentLiabilities := safeGetNum asset idx "Total Current Liabilities"
      let totalLiabilities := safeGetNum asset idx "Total Liabilities"
      let retainedEarnings := safeGetNum asset idx "Retained Earnings"
      let shareholdersEquity :=
        safeGetNum asset idx "Total Owner's Equity (or Shareholders' Equity)"
      let operatingRevenue := safeGetNum income idx "Operating Revenue"
      let operatingProfit := safeGetNum income idx "Operating Profit"
      let interestExpense := safeGetNum income idx "Interest Expenses"
      let workingCapital := currentAssets - currentLiabilities
      let x1 := if totalAssets ≠ 0 then workingCapital / totalAssets else 0
      let x2 := if totalAssets ≠ 0 then retainedEarnings / totalAssets else 0
      let ebit := operatingProfit + interestExpense
      let x3 := if totalAssets ≠ 0 then ebit / totalAssets else 0
      let x4 := if totalLiabilities ≠ 0 then shareholdersEquity / totalLiabilities else 0
      let x5 := if totalAssets ≠ 0 then operatingRevenue / totalAssets else 0
      let zScore := 1.2 * x1 + 1.4 * x2 + 3.3 * x3 + 0.6 * x4 + 1.0 * x5
      let riskLevel :=
        if zScore > 2.99 then safeZoneStr
        else if zScore > 1.81 then greyZoneStr
        else distressZoneStr
      let riskDesc :=
        if zScore > 2.99 then
          "财务状况良好，破产风险低 (Good financial health, low bankruptcy risk)"
        else if zScore > 1.81 then
          "财务状况一般，需要关注 (Fair financial health, attention needed)"
        else
          "财务状况堪忧，破产风险高 (Poor financial health, high bankruptcy risk)"
      some
        { reportDate := reportDate
          zScore := round4 zScore
          x1 := round4 x1, x2 := round4 x2, x3 := round4 x3
          x4 := round4 x4, x5 := round4 x5
          riskLevel := riskLevel, riskDesc := riskDesc
          totalAssets := totalAssets, workingCapital := workingCapital
          retainedEarnings := retainedEarnings, ebit := ebit
          shareholdersEquity := shareholdersEquity
          totalLiabilities := totalLiabilities
          operatingRevenue := operatingRevenue }

/-- `AltmanZScore.calculate_zscore`: iterate over every row label of the
balance sheet (`for idx in self.pd_asset.index`) — there is no
12-period window here. -/
def calculateZscore (asset income : Table) : List ZRow :=
  (List.range asset.rows.length).filterMap (calcZscoreRow asset income)

/-- The Z formula exactly as the claim words it:
`Z = 1.2·X1 + 1.4·X2 + 3.3·X3 + 0.6·X4 + 1.0·X5` with
`X1 = (current assets − current liabilities)/total assets`,
`X2 = retained earnings/total assets`,
`X3 = (operating profit + interest expense)/total assets`,
`X4 = shareholders' equity/total liabilities`,
`X5 = operating revenue/total assets`,
over the null-safe lookups the module uses. -/
def altmanZclaim (asset income : Table) (idx : ℕ) : ℚ :=
  let ta := safeGetNum asset idx "Total Assets"
  1.2 * ((safeGetNum asset idx "Total Current Assets" -
          safeGetNum asset idx "Total Current Liabilities") / ta) +
  1.4 * (safeGetNum asset idx "Retained Earnings" / ta) +
  3.3 * ((safeGetNum income idx "Operating Profit" +
          safeGetNum income idx "Interest Expenses") / ta) +
  0.6 * (safeGetNum asset idx "Total Owner's Equity (or Shareholders' Equity)" /
         safeGetNum asset idx "Total Liabilities") +
  1.0 * (safeGetNum income idx "Operating Revenue" / ta)

/-- Concrete balance sheet: total assets 1000, current assets 600, current
liabilities 200, total liabilities 400, retained earnings 150, equity 600. -/
def wAltmanAsset : Table :=
  { cols := ["报告日", "Total Assets", "Total Current Assets", "Total Current Liabilities",
             "Total Liabilities", "Retained Earnings",
             "Total Owner's Equity (or Shareholders' Equity)"]
    rows := [[.num 20231231, .num 1000, .num 600, .num 200, .num 400, .num 150, .num 600]] }

/-- Concrete income statement: revenue 900, operating profit 100, interest 10. -/
def wAltmanIncome : Table :=
  { cols := ["Operating Revenue", "Operating Profit", "Interest Expenses"]
    rows := [[.num 900, .num 100, .num 10]] }

/-- The row `calculate_zscore` produces on the tables above:
`Z = 0.48 + 0.21 + 0.363 + 0.9 + 0.9 = 2.853`, grey zone. -/
def wAltmanRow : ZRow :=
  { reportDate := .num 20231231
    zScore := 2.853, x1 := 0.4, x2 := 0.15, x3 := 0.11, x4 := 1.5, x5 := 0.9
    riskLevel := greyZoneStr
    riskDesc := "财务状况一般，需要关注 (Fair financial health, attention needed)"
    totalAssets := 1000, workingCapital := 400, retainedEarnings := 150
    ebit := 110, shareholdersEquity := 600, totalLiabilities := 400
    operatingRevenue := 900 }

/-- Thirteen identical valid reporting periods (balance sheet). -/
def c2Asset : Table :=
  { cols := wAltmanAsset.cols
    rows := List.replicate 13
      [Cell.num 20231231, .num 1000, .num 600, .num 200, .num 400, .num 150, .num 600] }

/-- Thirteen identical valid reporting periods (income statement). -/
def c2Income : Table :=
  { cols := wAltmanIncome.cols
    rows := List.replicate 13 [Cell.num 900, .num 100, .num 10] }

/-- One column, three rows: a NaN, an empty string, an unparseable string. -/
def c3Table : Table :=
  { cols := ["甲"], rows := [[Cell.na], [Cell.str ""], [Cell.str "abc"]] }

/-- Empty balance sheet for the fallback witness. -/
def c3Asset : Table := { cols := [], rows := [] }

/-- Income statement lacking the net-profit column. -/
def c3IncomeW : Table := { cols := ["x"], rows := [[Cell.na]] }

/-- Cash-flow statement with one dated period. -/
def c3CashflowW : Table := { cols := ["报告日"], rows := [[Cell.num 20231231]] }

/-- The row the operating-quality loop produces on the tables above. -/
def c3RowW : OQRow :=
  { reportDate := .num 20231231, operatingCf := 0, netProfit := 0
    cfToProfitRatio := 0, accrual := 0, accrualRatio := 0, yoyCfChange := 0 }

/-! ## Module entry points and table overrides -/

/-- A module compute entry point: its name and the parameter names of its
`def` line in the source. -/
structure EntryPoint where
  name : String
  params : List String
deriving DecidableEq, Repr

/-- The `def analyze_*` lines of every metric module, with their parameter
lists exactly as declared in the source files. -/
def entryPoints : List EntryPoint :=
  [⟨"analyze_altman_zscore", ["stock_code", "print_output"]⟩,
   ⟨"analyze_beneish_mscore", ["stock_code", "print_output"]⟩,
   ⟨"analyze_dupont_roe_3factor", ["stock_code", "print_output"]⟩,
   ⟨"analyze_dupont_roe_5factor", ["stock_code", "print_output"]⟩,
   ⟨"analyze_gross_margin", ["stock_code", "print_output"]⟩,
   ⟨"analyze_net_margin", ["stock_code", "print_output"]⟩,
   ⟨"analyze_roe", ["stock_code", "print_output"]⟩,
   ⟨"analyze_roa", ["stock_code", "print_output"]⟩,
   ⟨"analyze_roic", ["stock_code", "print_output"]⟩,
   ⟨"analyze_pe_ratio", ["stock_code", "print_output"]⟩,
   ⟨"analyze_pb_ratio", ["stock_code", "print_output"]⟩,
   ⟨"analyze_ps_ratio", ["stock_code", "print_output"]⟩,
   ⟨"analyze_peg_ratio", ["stock_code", "print_output"]⟩,
   ⟨"analyze_ev_ebitda", ["stock_code", "print_output"]⟩,
   ⟨"analyze_operating_cashflow_quality",
     ["stock_code", "print_output", "pd_asset", "pd_income", "pd_cashflow"]⟩,
   ⟨"analyze_free_cashflow",
     ["stock_code", "print_output", "pd_asset", "pd_income", "pd_cashflow"]⟩,
   ⟨"analyze_cashflow_adequacy",
     ["stock_code", "print_output", "pd_asset", "pd_income", "pd_cashflow"]⟩,
   ⟨"analyze_cash_conversion_cycle",
     ["stock_code", "print_output", "pd_asset", "pd_income", "pd_cashflow"]⟩]

/-- Whether an entry point accepts already-loaded statement tables as an
optional override (the `pd_asset`/`pd_income`/`pd_cashflow` keyword
parameters). -/
def acceptsTableOverride (e : EntryPoint) : Bool :=
  e.params.contains "pd_asset" && e.params.contains "pd_income" &&
    e.params.contains "pd_cashflow"

/-- `CashFlowAnalyzer.load_data`: when all three tables were provided the
fetch is skipped entirely; otherwise each missing table is fetched from the
provider (modelled as the function `fetch` from statement kind to table). -/
def cfLoadData (pa pi pc : Option Table) (fetch : String → Table) :
    Table × Table × Table :=
  match pa, pi, pc with
  | some a, some i, some c => (a, i, c)
  | _, _, _ =>
    (pa.getD (fetch "资产负债表"), pi.getD (fetch "利润表"), pc.getD (fetch "现金流量表"))

/-! ## Orchestrator category dispatch
(`StockAnalysisWorkflow.financial_analysis_parallel` / `_serial`) -/

/-- A financial-analysis category task: its name paired with either the
result entries its function writes under the lock, or the exception it
raises. -/
abbrev CategoryTask (R : Type) := String × Except String (List (String × R))

/-- The `as_completed` loop of `financial_analysis_parallel`: every
submitted task is waited on; a raising task appends
`分析模块 {name} 失败: {e}` to the error list and the others are unaffected. -/
def runParallelAux {R : Type} :
    List (CategoryTask R) → List (String × R) × List String →
      List (String × R) × List String
  | [], acc => acc
  | (name, t) :: rest, (res, errs) =>
    match t with
    | .ok entries => runParallelAux rest (res ++ entries, errs)
    | .error e => runParallelAux rest (res, errs ++ [s!"分析模块 {name} 失败: {e}"])

/-- `financial_analysis_parallel` on a task list. -/
def runParallel {R : Type} (tasks : List (CategoryTask R)) :
    List (String × R) × List String :=
  runParallelAux tasks ([], [])

/-- `financial_analysis_serial`: one `try` wraps the four category calls in
order, so the first exception appends a single `财务分析失败: {e}` and the
remaining categories never run. -/
def runSerialAux {R : Type} :
    List (CategoryTask R) → List (String × R) × List String →
      List (String × R) × List String
  | [], acc => acc
  | (_, t) :: rest, (res, errs) =>
    match t with
    | .ok entries => runSerialAux rest (res ++ entries, errs)
    | .error e => (res, errs ++ [s!"财务分析失败: {e}"])

/-- `financial_analysis_serial` on a task list. -/
def runSerial {R : Type} (tasks : List (CategoryTask R)) :
    List (String × R) × List String :=
  runSerialAux tasks ([], [])

/-- The four category tasks with the first (DuPont) raising and the other
three succeeding. -/
def c5Tasks : List (CategoryTask ℕ) :=
  [("dupont", .error "boom"),
   ("profitability", .ok [("gross_margin", 1)]),
   ("valuation", .ok [("pe", 2)]),
   ("cashflow", .ok [("fcf", 3)])]

/-! ## Benford leading-digit check (`CheckBenford.check_benford`) -/

/-- Python `str(int)` as a character list: a `-` prefix for negatives, then
the decimal digits (the statement series reach `astype(str)` as integral
values; a float would only add a trailing `.0`, which never affects the
first character). -/
def pyStrChars (n : ℤ) : List Char :=
  if n < 0 then '-' :: natDigits n.natAbs else natDigits n.toNat

/-- `data.astype(str).str[0]`: the first character of an entry. -/
def firstChar (n : ℤ) : Char := (pyStrChars n).headD ' '

/-- The actual digit counts of `check_benford`: take each entry's first
character, drop the entries whose first character is `-` or `+`
(`leading_digits[leading_digits != "-"]` and `!= "+"`), and count the
occurrences of the digit character `str(d)`. -/
def benfordActualCount (data : List ℤ) (d : ℕ) : ℕ :=
  ((data.map firstChar).filter (fun c => c != '-' && c != '+')).count (Nat.digitChar d)

/-- Modelled from the claim's words: sign characters are stripped from each
entry before leading-digit extraction, so every entry contributes the
leading digit of its absolute value. -/
def benfordSpecCount (data : List ℤ) (d : ℕ) : ℕ :=
  (data.map (fun n => (natDigits n.natAbs).headD ' ')).count (Nat.digitChar d)

/-- `benford_dist = np.log10(1 + 1 / np.arange(1, 10))`: the theoretical
frequency of leading digit `d`. -/
noncomputable def benfordDist (d : ℕ) : ℝ := Real.logb 10 (1 + 1 / d)

/-- `expected_counts = len(data) * benford_dist`: the full input length
(sign-prefixed entries included) scales the theoretical distribution. -/
noncomputable def benfordExpectedCount (n : ℕ) (d : ℕ) : ℝ := n * benfordDist d

/-- Five valid periods: the four most recent identical (margin 50%), the
oldest with margin 20%, so a year-over-year comparison at the newest period
would read 30. -/
def c7Income : Table :=
  { cols := ["报告日", "营业收入", "营业成本"]
    rows := [[.num 20241231, .num 100, .num 50],
             [.num 20240930, .num 100, .num 50],
             [.num 20240630, .num 100, .num 50],
             [.num 20240331, .num 100, .num 50],
             [.num 20231231, .num 100, .num 80]] }

/-- The newest row the gross-margin loop produces on `c7Income`. -/
def c7Row0 : GMRow :=
  { reportDate := .num 20241231, grossMargin := 50, yoyChange := 0, qoqChange := 0
    revenue := 100, cost := 50, grossProfit := 50 }

/-- A statement table with no columns and no periods. -/
def emptyIncome : Table := { cols := [], rows := [] }

/-! ## Beneish M-Score (`BeneishMScore`) -/

/-- Deterministic model of `f"{x:.2f}"`. -/
def fmt2 (q : ℚ) : String :=
  let n := qround (q * 100)
  let a := n.natAbs
  (if n < 0 then "-" else "") ++ natRepr (a / 100) ++ "." ++
    String.mk (padZeros 2 (natDigits (a % 100)))

/-- `calculate_dsri`: `np.nan` is modelled as `none`. -/
def calculateDsri (asset income : Table) (c p : ℕ) : Option ℚ :=
  let currentReceivables := bGet asset c "应收账款" "Accounts Receivable"
  let priorReceivables := bGet asset p "应收账款" "Accounts Receivable"
  let currentRevenue := bGet income c "营业收入" "Operating Revenue"
  let priorRevenue := bGet income p "营业收入" "Operating Revenue"
  if priorRevenue = 0 ∨ currentRevenue = 0 then none
  else
    let currentRatio := currentReceivables / currentRevenue
    let priorRatio := priorReceivables / priorRevenue
    if priorRatio = 0 then some 1 else some (currentRatio / priorRatio)

/-- `calculate_gmi`. -/
def calculateGmi (income : Table) (c p : ℕ) : Option ℚ :=
  let currentRevenue := bGet income c "营业收入" "Operating Revenue"
  let priorRevenue := bGet income p "营业收入" "Operating Revenue"
  let currentCost := bGet income c "营业成本" "Operating Costs"
  let priorCost := bGet income p "营业成本" "Operating Costs"
  if currentRevenue = 0 ∨ priorRevenue = 0 then none
  else
    let priorMargin := (priorRevenue - priorCost) / priorRevenue
    let currentMargin := (currentRevenue - currentCost) / currentRevenue
    if currentMargin = 0 then some 1 else some (priorMargin / currentMargin)

/-- `calculate_aqi`. -/
def calculateAqi (asset : Table) (c p : ℕ) : Option ℚ :=
  let currentTotalAssets := bGet asset c "资产总计" "Total Assets"
  let priorTotalAssets := bGet asset p "资产总计" "Total Assets"
  let currentCurrentAssets := bGet asset c "流动资产合计" "Total Current Assets"
  let priorCurrentAssets := bGet asset p "流动资产合计" "Total Current Assets"
  let currentFixedAssets := bGet asset c "固定资产净额" "Net Fixed Assets"
  let priorFixedAssets := bGet asset p "固定资产净额" "Net Fixed Assets"
  if currentTotalAssets = 0 ∨ priorTotalAssets = 0 then none
  else
    let currentRatio :=
      (currentTotalAssets - currentCurrentAssets - currentFixedAssets) / currentTotalAssets
    let priorRatio :=
      (priorTotalAssets - priorCurrentAssets - priorFixedAssets) / priorTotalAssets
    if priorRatio = 0 then some 1 else some (currentRatio / priorRatio)

/-- `calculate_sgi`. -/
def calculateSgi (income : Table) (c p : ℕ) : Option ℚ :=
  let currentRevenue := bGet income c "营业收入" "Operating Revenue"
  let priorRevenue := bGet income p "营业收入" "Operating Revenue"
  if priorRevenue = 0 then none else some (currentRevenue / priorRevenue)

/-- `calculate_depi` (never NaN: every path returns a number). -/
def calculateDepi (asset : Table) (c p : ℕ) : ℚ :=
  let currentDepreciation := |bGet asset c "累计折旧" "Accumulated Depreciation"|
  let priorDepreciation := |bGet asset p "累计折旧" "Accumulated Depreciation"|
  let currentGrossPpe := currentDepreciation + bGet asset c "固定资产净额" "Net Fixed Assets"
  let priorGrossPpe := priorDepreciation + bGet asset p "固定资产净额" "Net Fixed Assets"
  let currentCost := bGet asset c "固定资产原值" "Cost of Fixed Assets"
  let priorCost := bGet asset p "固定资产原值" "Cost of Fixed Assets"
  let currentGrossPpe := if currentCost > 0 then currentCost else currentGrossPpe
  let priorGrossPpe := if priorCost > 0 then priorCost else priorGrossPpe
  if currentGrossPpe = 0 ∨ priorGrossPpe = 0 then 1
  else
    let priorRate := priorDepreciation / priorGrossPpe
    let currentRate := currentDepreciation / currentGrossPpe
    if currentRate = 0 then 1 else priorRate / currentRate

/-- `calculate_sgai`. -/
def calculateSgai (income : Table) (c p : ℕ) : Option ℚ :=
  let currentSelling := bGet income c "销售费用" "Selling Expenses"
  let priorSelling := bGet income p "销售费用" "Selling Expenses"
  let currentAdmin := bGet income c "管理费用" "Administrative Expenses"
  let priorAdmin := bGet income p "管理费用" "Administrative Expenses"
  let currentRevenue := bGet income c "营业收入" "Operating Revenue"
  let priorRevenue := bGet income p "营业收入" "Operating Revenue"
  if priorRevenue = 0 ∨ currentRevenue = 0 then none
  else
    let currentRatio := (currentSelling + currentAdmin) / currentRevenue
    let priorRatio := (priorSelling + priorAdmin) / priorRevenue
    if priorRatio = 0 then some 1 else some (currentRatio / priorRatio)

/-- `calculate_lvgi`. -/
def calculateLvgi (asset : Table) (c p : ℕ) : Option ℚ :=
  let currentCurrentLiab := bGet asset c "流动负债合计" "Total Current Liabilities"
  let priorCurrentLiab := bGet asset p "流动负债合计" "Total Current Liabilities"
  let currentNoncurrentLiab := bGet asset c "非流动负债合计" "Total Non-current Liabilities"
  let priorNoncurrentLiab := bGet asset p "非流动负债合计" "Total Non-current Liabilities"
  let currentTotalAssets := bGet asset c "资产总计" "Total Assets"
  let priorTotalAssets := bGet asset p "资产总计" "Total Assets"
  if priorTotalAssets = 0 ∨ currentTotalAssets = 0 then none
  else
    let currentRatio := (currentCurrentLiab + currentNoncurrentLiab) / currentTotalAssets
    let priorRatio := (priorCurrentLiab + priorNoncurrentLiab) / priorTotalAssets
    if priorRatio = 0 then some 1 else some (currentRatio / priorRatio)

/-- `calculate_tata` (returns a number on every path; the `current_idx == 0`
guard yields 0.0). -/
def calculateTata (asset cashflow : Table) (c : ℕ) : ℚ :=
  let operatingCashflow := bGet cashflow c "经营活动产生的现金流量净额"
    "Net Cash Flow from Operating Activities"
  if c = 0 then 0
  else
    let currentWorkingCapital :=
      bGet asset c "流动资产合计" "Total Current Assets" -
      bGet asset c "流动负债合计" "Total Current Liabilities"
    let priorWorkingCapital :=
      bGet asset (c - 1) "流动资产合计" "Total Current Assets" -
      bGet asset (c - 1) "流动负债合计" "Total Current Liabilities"
    let workingCapitalChange := currentWorkingCapital - priorWorkingCapital
    let totalAssets := bGet asset c "资产总计" "Total Assets"
    if totalAssets = 0 then 0
    else (workingCapitalChange - operatingCashflow) / totalAssets

/-- One row of the Beneish result table. -/
structure MRow where
  reportDate : Cell
  dsri : Option ℚ
  gmi : Option ℚ
  aqi : Option ℚ
  sgi : Option ℚ
  depi : ℚ
  sgai : Option ℚ
  lvgi : Option ℚ
  tata : ℚ
  mscore : ℚ
  riskLevel : String
  riskDesc : String
  warnings : String
deriving DecidableEq, Repr

/-- A sub-index warning line (`f"{label}({x:.2f}): …"` appended when the
index exceeds its threshold and is not NaN). -/
def warnIf (o : Option ℚ) (threshold : ℚ) (label tail : String) : List String :=
  match o with
  | some v => if v > threshold then [s!"{label}({fmt2 v}): {tail}"] else []
  | none => []

/-- `BeneishMScore.calculate_mscore`: `None` at period index 0, otherwise
the eight sub-indices (NaN defaulting to 1.0, TATA to 0.0), the M-Score
linear combination, the −2.22 risk threshold and the warning lines. -/
def calculateMscore (asset income cashflow : Table) (periodIdx : ℕ) : Option MRow :=
  if periodIdx = 0 then none
  else
    let p := periodIdx - 1
    let dsri := calculateDsri asset income periodIdx p
    let gmi := calculateGmi income periodIdx p
    let aqi := calculateAqi asset periodIdx p
    let sgi := calculateSgi income periodIdx p
    let depi := calculateDepi asset periodIdx p
    let sgai := calculateSgai income periodIdx p
    let lvgi := calculateLvgi asset periodIdx p
    let tata := calculateTata asset cashflow periodIdx
    let mscore := -4.84 + 0.920 * dsri.getD 1 + 0.528 * gmi.getD 1 +
      0.404 * aqi.getD 1 + 0.892 * sgi.getD 1 + 0.115 * depi -
      0.172 * sgai.getD 1 + 4.679 * tata - 0.327 * lvgi.getD 1
    let riskLevel :=
      if mscore > -2.22 then "高风险 (High Risk)" else "低风险 (Low Risk)"
    let riskDesc :=
      if mscore > -2.22 then
        "M-Score高于阈值，可能存在财务操纵风险 (Possible financial manipulation)"
      else
        "M-Score低于阈值，财务操纵风险较低 (Low manipulation risk)"
    let warningList :=
      warnIf dsri 1.05 "DSRI" "应收账款增长快于收入" ++
      warnIf gmi 1.05 "GMI" "毛利率下降" ++
      warnIf aqi 1.05 "AQI" "资产质量下降" ++
      warnIf sgi 1.1 "SGI" "快速销售增长" ++
      warnIf (some depi) 1.05 "DEPI" "折旧率下降" ++
      warnIf sgai 1.05 "SGAI" "费用率上升" ++
      warnIf lvgi 1.05 "LVGI" "杠杆率上升" ++
      (if |tata| > 0.05 then [s!"TATA({fmt2 tata}): 应计项目异常"] else [])
    let warnings :=
      if warningList.isEmpty then "各指标正常 (All indicators normal)"
      else String.intercalate "; " warningList
    some
      { reportDate := Cell.na
        dsri := dsri, gmi := gmi, aqi := aqi, sgi := sgi, depi := depi
        sgai := sgai, lvgi := lvgi, tata := tata
        mscore := mscore, riskLevel := riskLevel, riskDesc := riskDesc
        warnings := warnings }

/-- The raw cell of column `col` at row `i` (`df[col].tolist()[i]`). -/
def columnCell (t : Table) (col : String) (i : ℕ) : Cell :=
  match t.cols.indexOf? col, t.rows.get? i with
  | some j, some r => (r.get? j).getD Cell.na
  | _, _ => Cell.na

/-- `BeneishMScore.calculate_all_periods`: nothing without a date column;
otherwise `for i in range(1, len(report_dates))`, appending every computed
row with its report date. -/
def calculateAllPeriods (asset income cashflow : Table) : List MRow :=
  match getColumn income "报告日" "Report Date" with
  | none => []
  | some dateCol =>
    ((List.range income.rows.length).drop 1).filterMap fun i =>
      (calculateMscore asset income cashflow i).map fun r =>
        { r with reportDate := columnCell income dateCol i }

end StockTool

namespace StockToolThm

open StockTool

/-- **C1.** For every reporting period that produces a row (nonempty report
date and nonzero total assets), the Altman module computes
`Z = 1.2·X1 + 1.4·X2 + 3.3·X3 + 0.6·X4 + 1.0·X5` with the claim's ratio
definitions, and classifies the period as safe exactly when `Z > 2.99`,
grey exactly when `1.81 < Z ≤ 2.99`, and distress exactly when `Z ≤ 1.81`. -/
theorem altman_zscore_formula_thresholds (asset income : Table) (idx : ℕ) (row : ZRow)
    (h : calcZscoreRow asset income idx = some row) :
    safeGetNum asset idx "Total Assets" ≠ 0 ∧
    row.zScore = round4 (altmanZclaim asset income idx) ∧
    (row.riskLevel = safeZoneStr ↔ 2.99 < altmanZclaim asset income idx) ∧
    (row.riskLevel = greyZoneStr ↔
      1.81 < altmanZclaim asset income idx ∧ altmanZclaim asset income idx ≤ 2.99) ∧
    (row.riskLevel = distressZoneStr ↔ altmanZclaim asset income idx ≤ 1.81) := by
  unfold calcZscoreRow at h
  simp only [] at h
  split at h
  · exact absurd h (by simp)
  · split at h
    · exact absurd h (by simp)
    · rename_i hta
      rw [Option.some.injEq] at h
      subst h
      refine ⟨hta, ?_⟩
      -- the code's X4 fallback coincides with the claim's `equity/liabilities`
      -- because division by a zero denominator is 0 in `ℚ`
      have hx4 : (if safeGetNum asset idx "Total Liabilities" ≠ 0 then
            safeGetNum asset idx "Total Owner's Equity (or Shareholders' Equity)" /
            safeGetNum asset idx "Total Liabilities" else 0) =
          safeGetNum asset idx "Total Owner's Equity (or Shareholders' Equity)" /
          safeGetNum asset idx "Total Liabilities" := by
        by_cases htl : safeGetNum asset idx "Total Liabilities" = 0
        · rw [if_neg (by simp [htl]), htl, div_zero]
        · rw [if_pos htl]
      rw [hx4]
      have hzc : altmanZclaim asset income idx =
          1.2 * ((safeGetNum asset idx "Total Current Assets" -
              safeGetNum asset idx "Total Current Liabilities") /
              safeGetNum asset idx "Total Assets") +
            1.4 * (safeGetNum asset idx "Retained Earnings" /
              safeGetNum asset idx "Total Assets") +
            3.3 * ((safeGetNum income idx "Operating Profit" +
              safeGetNum income idx "Interest Expenses") /
              safeGetNum asset idx "Total Assets") +
            0.6 * (safeGetNum asset idx "Total Owner's Equity (or Shareholders' Equity)" /
              safeGetNum asset idx "Total Liabilities") +
            1.0 * (safeGetNum income idx "Operating Revenue" /
              safeGetNum asset idx "Total Assets") := rfl
      rw [hzc]
      refine ⟨rfl, ?_⟩
      split <;> rename_i hcmp <;> dsimp only
      · refine ⟨⟨fun _ => hcmp, fun _ => rfl⟩, ?_, ?_⟩
        · constructor
          · intro hs; exact absurd hs (by decide)
          · rintro ⟨-, hle⟩; exact absurd hcmp (not_lt.mpr hle)
        · constructor
          · intro hs; exact absurd hs (by decide)
          · intro hle
            exact absurd hcmp (not_lt.mpr (hle.trans (by norm_num)))
      · split <;> rename_i hcmp2
        · refine ⟨?_, ⟨fun _ => ⟨hcmp2, not_lt.mp hcmp⟩, fun _ => rfl⟩, ?_⟩
          · constructor
            · intro hs; exact absurd hs (by decide)
            · intro hgt; exact absurd hgt hcmp
          · constructor
            · intro hs; exact absurd hs (by decide)
            · intro hle; exact absurd hcmp2 (not_lt.mpr hle)
        · refine ⟨?_, ?_, fun _ => not_lt.mp hcmp2, fun _ => rfl⟩
          · constructor
            · intro hs; exact absurd hs (by decide)
            · intro hgt
              exact absurd ((by norm_num : (1.81 : ℚ) < 2.99).trans hgt) hcmp2
          · constructor
            · intro hs; exact absurd hs (by decide)
            · rintro ⟨hgt, -⟩; exact absurd hgt hcmp2

/-- **C1 witness**: on the concrete tables the hypothesis holds and the
period lands in the grey zone with `1.81 < Z = 2.853 ≤ 2.99`. -/
theorem altman_zscore_formula_thresholds_witness :
    calcZscoreRow wAltmanAsset wAltmanIncome 0 = some wAltmanRow ∧
    (1.81 < altmanZclaim wAltmanAsset wAltmanIncome 0 ∧
      altmanZclaim wAltmanAsset wAltmanIncome 0 ≤ 2.99) := by
  have h : calcZscoreRow wAltmanAsset wAltmanIncome 0 = some wAltmanRow := by
    simp [calcZscoreRow, safeGetNum, safeGet, Table.getCell, getColumn, tryFloat,
          PyVal.toNum, PyVal.falsy, Cell.isNa, round4, qround, wAltmanAsset,
          wAltmanIncome, wAltmanRow, List.indexOf?, List.findIdx?, Int.fdiv]
    norm_num
  exact ⟨h, ((altman_zscore_formula_thresholds wAltmanAsset wAltmanIncome 0
    wAltmanRow h).2.2.2.1).mp rfl⟩

set_option maxHeartbeats 4000000 in
/-- **C2 counterexample.** On thirteen valid reporting periods the Altman
module produces thirteen rows: `calculate_zscore` iterates over the whole
balance-sheet index with no 12-period window, so periods beyond the most
recent 12 do appear in its output. -/
theorem altman_no_twelve_period_window :
    12 < c2Asset.rows.length ∧ (calculateZscore c2Asset c2Income).length = 13 := by
  constructor
  · simp [c2Asset]
  · simp [calculateZscore, calcZscoreRow, safeGetNum, safeGet, Table.getCell, getColumn,
          tryFloat, PyVal.toNum, PyVal.falsy, Cell.isNa, round4, qround, c2Asset, c2Income,
          wAltmanAsset, wAltmanIncome, List.indexOf?, List.findIdx?, Int.fdiv,
          List.replicate, List.range_succ]

/-- **C2 amended.** The DuPont, profitability and cash-flow modules do cap
their loops at `min(12, …)` periods, so their result tables never exceed
12 rows; the Altman (and Beneish) modules have no such window. -/
theorem capped_modules_twelve_period_window (asset income cashflow : Table) :
    (calculateRoe3Factor asset income).length ≤ 12 ∧
    (grossMarginTable income).length ≤ 12 ∧
    (opQualityTable asset income cashflow).length ≤ 12 := by
  refine ⟨?_, ?_, ?_⟩
  · calc (calculateRoe3Factor asset income).length
        ≤ (List.range (min 12 (min income.rows.length asset.rows.length))).length :=
          List.length_filterMap_le _ _
      _ ≤ 12 := by rw [List.length_range]; exact Nat.min_le_left _ _
  · calc (grossMarginTable income).length
        ≤ (List.range (min 12 income.rows.length)).length :=
          List.length_filterMap_le _ _
      _ ≤ 12 := by rw [List.length_range]; exact Nat.min_le_left _ _
  · calc (opQualityTable asset income cashflow).length
        ≤ (List.range (min 12 (min cashflow.rows.length income.rows.length))).length :=
          List.length_filterMap_le _ _
      _ ≤ 12 := by rw [List.length_range]; exact Nat.min_le_left _ _

/-- **C3.** The null-safe lookup is total: it returns the caller-supplied
default when the column is absent (under both names), when the row index is
out of range, and when the stored value is NaN, the empty string, or a
string `float()` cannot parse; consequently the operating-cash-flow module's
`cash flow / net profit` ratio is the documented fallback 0 whenever its
denominator is zero or unavailable, with no division error anywhere. -/
theorem null_safe_lookup_total (t : Table) (idx : ℕ) (cn en : String) (d : PyVal) :
    (¬ t.cols.contains cn ∧ ¬ t.cols.contains en → getValue t idx cn en d = d) ∧
    (t.rows.length ≤ idx → getValue t idx cn en d = d) ∧
    (∀ col, getColumn t cn en = some col → t.getCell idx col = some Cell.na →
      getValue t idx cn en d = d) ∧
    (∀ col, getColumn t cn en = some col → t.getCell idx col = some (Cell.str "") →
      getValue t idx cn en d = d) ∧
    (∀ col s, getColumn t cn en = some col → t.getCell idx col = some (Cell.str s) →
      parseDecimal s = none → getValue t idx cn en d = d) ∧
    (∀ asset income cashflow i row, opQualityRow asset income cashflow i = some row →
      getNum income i "归属于母公司所有者的净利润" "Net Profit Attributable to Parent" = 0 →
      row.cfToProfitRatio = 0) := by
  have hround0 : round4 0 = 0 := by
    norm_num [round4, qround]
    decide
  refine ⟨?_, ?_, ?_, ?_, ?_, ?_⟩
  · rintro ⟨h1, h2⟩
    unfold getValue getColumn
    rw [if_neg h1, if_neg h2]
  · intro hlen
    unfold getValue
    cases hc : getColumn t cn en with
    | none => rfl
    | some col => simp [Nat.not_lt.mpr hlen]
  · intro col hcol hcell
    unfold getValue
    rw [hcol]
    by_cases hlt : idx < t.rows.length
    · simp [hlt, hcell, Cell.isNa]
    · simp [hlt]
  · intro col hcol hcell
    unfold getValue
    rw [hcol]
    by_cases hlt : idx < t.rows.length
    · simp [hlt, hcell, Cell.isNa]
    · simp [hlt]
  · intro col s hcol hcell hparse
    unfold getValue
    rw [hcol]
    by_cases hlt : idx < t.rows.length
    · by_cases hs : s = ""
      · simp [hlt, hcell, hs, Cell.isNa]
      · simp [hlt, hcell, Cell.isNa, hs, tryFloat, hparse]
    · simp [hlt]
  · intro asset income cashflow i row h hnp
    unfold opQualityRow at h
    simp only [] at h
    split at h
    · exact absurd h (by simp)
    · rw [hnp] at h
      rw [Option.some.injEq] at h
      subst h
      simpa using hround0

/-- **C3 witness**: each hypothesis of the lookup-totality theorem is
discharged at a concrete table — missing column, out-of-range index, NaN,
empty string, unparseable string, and a missing net-profit denominator. -/
theorem null_safe_lookup_total_witness :
    getValue c3Table 0 "乙" "Missing" (.num 7) = .num 7 ∧
    getValue c3Table 9 "甲" "ColA" (.num 7) = .num 7 ∧
    getValue c3Table 0 "甲" "ColA" (.num 7) = .num 7 ∧
    getValue c3Table 1 "甲" "ColA" (.num 7) = .num 7 ∧
    getValue c3Table 2 "甲" "ColA" (.num 7) = .num 7 ∧
    opQualityRow c3Asset c3IncomeW c3CashflowW 0 = some c3RowW ∧
    c3RowW.cfToProfitRatio = 0 := by
  have hrow : opQualityRow c3Asset c3IncomeW c3CashflowW 0 = some c3RowW := by
    simp [opQualityRow, getNum, getValue, getColumn, Table.getCell, tryFloat,
          PyVal.toNum, PyVal.falsy, Cell.isNa, round4, qround, c3Asset, c3IncomeW,
          c3CashflowW, c3RowW, List.indexOf?, List.findIdx?, Int.fdiv]
  have hnp : getNum c3IncomeW 0 "归属于母公司所有者的净利润"
      "Net Profit Attributable to Parent" = 0 := by
    simp [getNum, getValue, getColumn, c3IncomeW, PyVal.toNum]
  exact ⟨(null_safe_lookup_total c3Table 0 "乙" "Missing" (.num 7)).1
      ⟨by decide, by decide⟩,
    (null_safe_lookup_total c3Table 9 "甲" "ColA" (.num 7)).2.1 (by decide),
    (null_safe_lookup_total c3Table 0 "甲" "ColA" (.num 7)).2.2.1 "甲"
      (by decide) (by decide),
    (null_safe_lookup_total c3Table 1 "甲" "ColA" (.num 7)).2.2.2.1 "甲"
      (by decide) (by decide),
    (null_safe_lookup_total c3Table 2 "甲" "ColA" (.num 7)).2.2.2.2.1 "甲" "abc"
      (by decide) (by decide) (by decide),
    hrow,
    (null_safe_lookup_total c3Table 0 "乙" "Missing" (.num 7)).2.2.2.2.2
      c3Asset c3IncomeW c3CashflowW 0 c3RowW hrow hnp⟩

/-- **C4 counterexample.** The DuPont 3-factor entry point is a metric
module compute entry point but takes only `stock_code` and `print_output`:
it has no table-override parameters, so not every module accepts
already-loaded statement tables. -/
theorem dupont_entry_has_no_table_override :
    (⟨"analyze_dupont_roe_3factor", ["stock_code", "print_output"]⟩ : EntryPoint)
      ∈ entryPoints ∧
    acceptsTableOverride
      ⟨"analyze_dupont_roe_3factor", ["stock_code", "print_output"]⟩ = false := by
  decide

/-- **C4 amended.** Only the four cash-flow entry points accept the
`pd_asset`/`pd_income`/`pd_cashflow` overrides, and when all three are
supplied `CashFlowAnalyzer.load_data` uses them unchanged regardless of
what the data provider would return; every other entry point takes only
`stock_code` and `print_output`. -/
theorem cashflow_entries_accept_and_use_override :
    (∀ e ∈ entryPoints, acceptsTableOverride e = true ↔
      e.name ∈ ["analyze_operating_cashflow_quality", "analyze_free_cashflow",
                "analyze_cashflow_adequacy", "analyze_cash_conversion_cycle"]) ∧
    (∀ (a i c : Table) (fetch : String → Table),
      cfLoadData (some a) (some i) (some c) fetch = (a, i, c)) := by
  constructor
  · decide
  · intro a i c fetch
    rfl

/-- **C4 witness**: the amended theorem applied to the free-cash-flow entry
point and to concrete supplied tables. -/
theorem cashflow_entries_accept_and_use_override_witness :
    (acceptsTableOverride
      ⟨"analyze_free_cashflow",
        ["stock_code", "print_output", "pd_asset", "pd_income", "pd_cashflow"]⟩ = true ↔
      "analyze_free_cashflow" ∈
        ["analyze_operating_cashflow_quality", "analyze_free_cashflow",
         "analyze_cashflow_adequacy", "analyze_cash_conversion_cycle"]) ∧
    cfLoadData (some c3Table) (some c3IncomeW) (some c3CashflowW) (fun _ => c3Asset) =
      (c3Table, c3IncomeW, c3CashflowW) :=
  ⟨cashflow_entries_accept_and_use_override.1
      ⟨"analyze_free_cashflow",
        ["stock_code", "print_output", "pd_asset", "pd_income", "pd_cashflow"]⟩
      (by decide),
   cashflow_entries_accept_and_use_override.2 c3Table c3IncomeW c3CashflowW
      (fun _ => c3Asset)⟩

/-- **C5 counterexample.** When the DuPont category raises in serial mode,
the three later categories — although their tasks would succeed — write no
results at all: the single `try` aborts the remaining calls, contradicting
"every other category still runs to completion in both modes". Parallel
mode does run them all. -/
theorem serial_mode_stops_after_category_failure :
    (runSerial c5Tasks).1 = [] ∧
    (runSerial c5Tasks).2 = ["财务分析失败: boom"] ∧
    (runParallel c5Tasks).1 = [("gross_margin", 1), ("pe", 2), ("fcf", 3)] := by
  decide

/-- Accumulator-generalised specification of the parallel
`as_completed` loop. -/
theorem runParallelAux_spec {R : Type} (tasks : List (CategoryTask R)) :
    ∀ acc : List (String × R) × List String,
    (∀ x ∈ acc.1, x ∈ (runParallelAux tasks acc).1) ∧
    (∀ s ∈ acc.2, s ∈ (runParallelAux tasks acc).2) ∧
    (∀ name entries, (name, Except.ok entries) ∈ tasks →
      ∀ x ∈ entries, x ∈ (runParallelAux tasks acc).1) ∧
    (∀ name e, (name, Except.error e) ∈ tasks →
      s!"分析模块 {name} 失败: {e}" ∈ (runParallelAux tasks acc).2) := by
  induction tasks with
  | nil =>
    intro acc
    refine ⟨fun x hx => hx, fun s hs => hs, ?_, ?_⟩
    · intro name entries h
      exact absurd h (List.not_mem_nil _)
    · intro name e h
      exact absurd h (List.not_mem_nil _)
  | cons hd rest ih =>
    intro acc
    obtain ⟨name, t⟩ := hd
    obtain ⟨res, errs⟩ := acc
    cases t with
    | ok entries =>
      have h := ih (res ++ entries, errs)
      refine ⟨?_, h.2.1, ?_, ?_⟩
      · intro x hx
        exact h.1 x (List.mem_append_left _ hx)
      · intro n es hmem x hx
        rcases List.mem_cons.mp hmem with heq | hrest
        · obtain ⟨h1, h2⟩ := Prod.mk.injEq .. ▸ heq
          cases h1
          cases Except.ok.injEq .. ▸ h2
          exact h.1 x (List.mem_append_right _ hx)
        · exact h.2.2.1 n es hrest x hx
      · intro n e hmem
        rcases List.mem_cons.mp hmem with heq | hrest
        · cases Prod.mk.injEq .. ▸ heq |>.1
          exact absurd (Prod.mk.injEq .. ▸ heq |>.2) (by simp)
        · exact h.2.2.2 n e hrest
    | error e =>
      have h := ih (res, errs ++ [s!"分析模块 {name} 失败: {e}"])
      refine ⟨h.1, ?_, ?_, ?_⟩
      · intro s hs
        exact h.2.1 s (List.mem_append_left _ hs)
      · intro n es hmem x hx
        rcases List.mem_cons.mp hmem with heq | hrest
        · exact absurd (Prod.mk.injEq .. ▸ heq |>.2) (by simp)
        · exact h.2.2.1 n es hrest x hx
      · intro n e2 hmem
        rcases List.mem_cons.mp hmem with heq | hrest
        · obtain ⟨h1, h2⟩ := Prod.mk.injEq .. ▸ heq
          cases h1
          cases Except.error.injEq .. ▸ h2
          exact h.2.1 _ (List.mem_append_right _ (List.mem_singleton_self _))
        · exact h.2.2.2 n e2 hrest

/-- **C5 amended.** In parallel mode every category runs: the entries of
each succeeding category task appear in the shared results and each raising
category contributes its `分析模块 … 失败` message to the error list,
regardless of other categories' failures.  In serial mode the first raising
category appends a single `财务分析失败` error and the remaining categories
in the fixed order do not run. -/
theorem parallel_mode_isolates_category_failures {R : Type}
    (tasks : List (CategoryTask R)) :
    (∀ name entries, (name, Except.ok entries) ∈ tasks →
      ∀ x ∈ entries, x ∈ (runParallel tasks).1) ∧
    (∀ name e, (name, Except.error e) ∈ tasks →
      s!"分析模块 {name} 失败: {e}" ∈ (runParallel tasks).2) :=
  ⟨(runParallelAux_spec tasks ([], [])).2.2.1,
   (runParallelAux_spec tasks ([], [])).2.2.2⟩

/-- **C5 witness**: the amended theorem applied to the concrete task list —
the profitability entry survives the DuPont failure and the DuPont error
message is collected. -/
theorem parallel_mode_isolates_category_failures_witness :
    ("gross_margin", 1) ∈ (runParallel c5Tasks).1 ∧
    "分析模块 dupont 失败: boom" ∈ (runParallel c5Tasks).2 :=
  ⟨(parallel_mode_isolates_category_failures c5Tasks).1 "profitability"
      [("gross_margin", 1)] (by simp [c5Tasks]) ("gross_margin", 1) (by decide),
   (parallel_mode_isolates_category_failures c5Tasks).2 "dupont" "boom"
      (by simp [c5Tasks])⟩

/-- `natDigitsAux` with positive fuel never returns the empty list. -/
theorem natDigitsAux_ne_nil (fuel n : ℕ) : natDigitsAux (fuel + 1) n ≠ [] := by
  unfold natDigitsAux
  split
  · simp
  · simp

/-- The first character produced by `natDigitsAux` is a decimal digit. -/
theorem natDigitsAux_head (fuel : ℕ) :
    ∀ n : ℕ, ∃ m, m < 10 ∧ (natDigitsAux (fuel + 1) n).headD ' ' = Nat.digitChar m := by
  induction fuel with
  | zero =>
    intro n
    unfold natDigitsAux
    by_cases h : n < 10
    · exact ⟨n, h, by rw [if_pos h]; rfl⟩
    · refine ⟨n % 10, Nat.mod_lt _ (by norm_num), ?_⟩
      rw [if_neg h]
      rfl
  | succ f ih =>
    intro n
    unfold natDigitsAux
    by_cases h : n < 10
    · exact ⟨n, h, by rw [if_pos h]; rfl⟩
    · obtain ⟨m, hm, hc⟩ := ih (n / 10)
      obtain ⟨a, t, ht⟩ := List.exists_cons_of_ne_nil (natDigitsAux_ne_nil f (n / 10))
      refine ⟨m, hm, ?_⟩
      rw [if_neg h, ht]
      rw [ht] at hc
      simpa using hc

/-- The first character of `natDigits` is a decimal digit. -/
theorem natDigits_head (n : ℕ) :
    ∃ m, m < 10 ∧ (natDigits n).headD ' ' = Nat.digitChar m :=
  natDigitsAux_head n n

/-- Decimal digit characters are neither `-` nor `+`. -/
theorem digitChar_not_sign (m : ℕ) (h : m < 10) :
    Nat.digitChar m ≠ '-' ∧ Nat.digitChar m ≠ '+' := by
  interval_cases m <;> exact ⟨by decide, by decide⟩

/-- **C6 counterexample.** The entry `-123` contributes nothing to the
actual digit counts — its first character is the sign, and the code drops
such entries outright instead of stripping the sign — while the claim's
reading would count leading digit 1 once. -/
theorem benford_negative_entry_not_counted :
    benfordActualCount [-123] 1 = 0 ∧ benfordSpecCount [-123] 1 = 1 := by
  decide

/-- **C6 amended.** `check_benford` removes the entries whose string form
begins with a sign character rather than stripping the sign: the actual
digit counts equal the claim's absolute-value counts computed on the
nonnegative entries only, so negative entries contribute to no digit. -/
theorem benford_sign_entries_dropped (data : List ℤ) (d : ℕ) :
    benfordActualCount data d =
      benfordSpecCount (data.filter (fun n => 0 ≤ n)) d := by
  induction data with
  | nil => rfl
  | cons n rest ih =>
    unfold benfordActualCount benfordSpecCount at ih ⊢
    by_cases hn : n < 0
    · have hfc : firstChar n = '-' := by
        unfold firstChar pyStrChars
        rw [if_pos hn]
        rfl
      have hdrop : decide (0 ≤ n) = false := by
        simp [Int.not_le.mpr hn]
      simp only [List.map_cons, List.filter_cons, hfc, hdrop]
      norm_num
      simpa using ih
    · push_neg at hn
      have habs : n.natAbs = n.toNat := by omega
      obtain ⟨m, hm, hc⟩ := natDigits_head n.toNat
      have hfc : firstChar n = Nat.digitChar m := by
        unfold firstChar pyStrChars
        rw [if_neg (Int.not_lt.mpr hn)]
        exact hc
      have hkeep : decide (0 ≤ n) = true := by simp [hn]
      have hsign := digitChar_not_sign m hm
      have hkeep2 : (Nat.digitChar m != '-' && Nat.digitChar m != '+') = true := by
        simp [bne_iff_ne, hsign.1, hsign.2]
      simp only [List.map_cons, List.filter_cons, hfc, hkeep, hkeep2, if_true,
        cond_true, habs, hc, List.count_cons]
      omega

/-- Telescoping step: `log10(1 + 1/(i+1)) = log10(i+2) − log10(i+1)`. -/
theorem logb_one_add_inv_succ (i : ℕ) :
    Real.logb 10 (1 + 1 / ((i : ℝ) + 1)) =
      Real.logb 10 ((i : ℝ) + 1 + 1) - Real.logb 10 ((i : ℝ) + 1) := by
  have h1 : ((i : ℝ) + 1) ≠ 0 := by positivity
  have h2 : ((i : ℝ) + 1 + 1) ≠ 0 := by positivity
  have hsplit : 1 + 1 / ((i : ℝ) + 1) = ((i : ℝ) + 1 + 1) / ((i : ℝ) + 1) := by
    field_simp
  rw [hsplit, Real.logb_div h2 h1]

/-- **C9.** For an input series of length `N` the Benford check's expected
count for each leading digit `d` in 1..9 is `N · log10(1 + 1/d)`, and the
nine expected counts sum to exactly `N`. -/
theorem benford_expected_counts_sum (N : ℕ) :
    (∀ d ∈ Finset.Icc 1 9, benfordExpectedCount N d = N * Real.logb 10 (1 + 1 / d)) ∧
    ∑ d in Finset.Icc 1 9, benfordExpectedCount N d = N := by
  constructor
  · intro d _
    rfl
  · have key : ∑ d in Finset.Icc (1 : ℕ) 9, Real.logb 10 (1 + 1 / (d : ℝ)) = 1 := by
      have hshift : ∀ i ∈ Finset.range 9,
          Real.logb 10 (1 + 1 / ((i + 1 : ℕ) : ℝ)) =
            Real.logb 10 ((i : ℝ) + 1 + 1) - Real.logb 10 ((i : ℝ) + 1) := by
        intro i _
        push_cast
        exact logb_one_add_inv_succ i
      calc ∑ d in Finset.Icc (1 : ℕ) 9, Real.logb 10 (1 + 1 / (d : ℝ))
          = ∑ i in Finset.range 9, Real.logb 10 (1 + 1 / ((i + 1 : ℕ) : ℝ)) := by
            rw [show Finset.Icc (1 : ℕ) 9 = Finset.map
              ⟨fun i => i + 1, fun a b h => by simpa using h⟩ (Finset.range 9) from by decide]
            rw [Finset.sum_map]
            rfl
        _ = ∑ i in Finset.range 9,
              (Real.logb 10 ((i : ℝ) + 1 + 1) - Real.logb 10 ((i : ℝ) + 1)) :=
            Finset.sum_congr rfl hshift
        _ = Real.logb 10 ((9 : ℝ) + 1) - Real.logb 10 ((0 : ℝ) + 1) := by
            have := Finset.sum_range_sub (fun j : ℕ => Real.logb 10 ((j : ℝ) + 1)) 9
            simpa using this
        _ = 1 := by
            norm_num
    unfold benfordExpectedCount benfordDist
    rw [← Finset.mul_sum, key, mul_one]

/-- **C9 witness**: the expected-count theorem applied at `N = 100`,
`d = 2`. -/
theorem benford_expected_counts_sum_witness :
    benfordExpectedCount 100 2 = (100 : ℝ) * Real.logb 10 (1 + 1 / (2 : ℝ)) ∧
    ∑ d in Finset.Icc (1 : ℕ) 9, benfordExpectedCount 100 d = (100 : ℝ) := by
  constructor
  · have h := (benford_expected_counts_sum 100).1 2 (by decide)
    exact_mod_cast h
  · have h := (benford_expected_counts_sum 100).2
    exact_mod_cast h

/-- `round(0, 4) = 0`. -/
theorem round4_zero : round4 0 = 0 := by
  norm_num [round4, qround]
  decide

/-- **C7 amended.** The year-over-year figure of a produced gross-margin
row is computed against the period 4 steps back only when the current index
is itself at least 4, the older period is strictly in range, and the older
base revenue is positive; in every other case — including the four most
recent periods, whose older comparison period may well be in range with a
nonzero base — it is 0. -/
theorem gross_margin_yoy_guard (income : Table) (idx : ℕ) (row : GMRow)
    (h : gmRow income idx = some row) :
    (idx < 4 → row.yoyChange = 0) ∧
    (income.rows.length ≤ idx + 4 → row.yoyChange = 0) ∧
    (getNum income (idx + 4) "营业收入" "Operating Revenue" ≤ 0 → row.yoyChange = 0) ∧
    (4 ≤ idx → idx + 4 < income.rows.length →
      0 < getNum income (idx + 4) "营业收入" "Operating Revenue" →
      row.yoyChange = round4
        ((getNum income idx "营业收入" "Operating Revenue" -
          getNum income idx "营业成本" "Operating Costs") /
          getNum income idx "营业收入" "Operating Revenue" * 100 -
         (getNum income (idx + 4) "营业收入" "Operating Revenue" -
          getNum income (idx + 4) "营业成本" "Operating Costs") /
          getNum income (idx + 4) "营业收入" "Operating Revenue" * 100)) := by
  unfold gmRow at h
  simp only [] at h
  split at h
  · exact absurd h (by simp)
  · split at h
    · exact absurd h (by simp)
    · rw [Option.some.injEq] at h
      subst h
      refine ⟨?_, ?_, ?_, ?_⟩
      · intro hlt
        have hcond : ¬ (4 ≤ idx ∧ idx + 4 < income.rows.length) := by omega
        simp only [if_neg hcond]
        exact round4_zero
      · intro hge
        have hcond : ¬ (4 ≤ idx ∧ idx + 4 < income.rows.length) := by omega
        simp only [if_neg hcond]
        exact round4_zero
      · intro hrev
        by_cases hcond : 4 ≤ idx ∧ idx + 4 < income.rows.length
        · simp only [if_pos hcond, if_neg (not_lt.mpr hrev)]
          exact round4_zero
        · simp only [if_neg hcond]
          exact round4_zero
      · intro h4 hlen hrev
        simp only [if_pos (And.intro h4 hlen), if_pos hrev]

/-- **C7 counterexample.** At the most recent period of the concrete table
the period 4 steps back is in range with nonzero (indeed positive) base
revenue, yet the module reports a year-over-year change of 0 where the
claim's rule computes 30. -/
theorem gross_margin_newest_period_yoy_zero :
    0 + 4 < c7Income.rows.length ∧
    getNum c7Income 4 "营业收入" "Operating Revenue" ≠ 0 ∧
    (grossMarginTable c7Income).head?.map GMRow.yoyChange = some 0 ∧
    round4 ((getNum c7Income 0 "营业收入" "Operating Revenue" -
        getNum c7Income 0 "营业成本" "Operating Costs") /
        getNum c7Income 0 "营业收入" "Operating Revenue" * 100 -
      (getNum c7Income 4 "营业收入" "Operating Revenue" -
        getNum c7Income 4 "营业成本" "Operating Costs") /
        getNum c7Income 4 "营业收入" "Operating Revenue" * 100) = 30 ∧
    (30 : ℚ) ≠ 0 := by
  refine ⟨by simp [c7Income], ?_, ?_, ?_, by norm_num⟩
  · simp [getNum, getValue, getColumn, Table.getCell, tryFloat, PyVal.toNum,
          Cell.isNa, c7Income, List.indexOf?, List.findIdx?]
  · simp [grossMarginTable, gmRow, getNum, getValue, getColumn, Table.getCell,
          tryFloat, PyVal.toNum, PyVal.falsy, Cell.isNa, round4, qround, c7Income,
          List.indexOf?, List.findIdx?, Int.fdiv, List.range_succ]
  · simp [getNum, getValue, getColumn, Table.getCell, tryFloat, PyVal.toNum,
          Cell.isNa, c7Income, List.indexOf?, List.findIdx?, round4, qround, Int.fdiv]
    norm_num

/-- **C7 witness**: the guard theorem applied at the concrete table's newest
period (`idx = 0 < 4`), forcing a zero year-over-year figure. -/
theorem gross_margin_yoy_guard_witness :
    gmRow c7Income 0 = some c7Row0 ∧ c7Row0.yoyChange = 0 := by
  have h : gmRow c7Income 0 = some c7Row0 := by
    simp [gmRow, getNum, getValue, getColumn, Table.getCell, tryFloat, PyVal.toNum,
          PyVal.falsy, Cell.isNa, round4, qround, c7Income, c7Row0,
          List.indexOf?, List.findIdx?, Int.fdiv]
    norm_num
  exact ⟨h, (gross_margin_yoy_guard c7Income 0 c7Row0 h).1 (by norm_num)⟩

set_option maxRecDepth 4096 in
/-- **C8 counterexample.** Two calls of the gross-margin module on the same
unchanged (empty) input table at different wall-clock instants return the
same result table but different report texts: the report interpolates
`datetime.now()` into its `生成时间` line. -/
theorem gross_margin_report_embeds_timestamp :
    (analyzeGrossMargin "600519" emptyIncome "2026-01-01 00:00:00").2 ≠
      (analyzeGrossMargin "600519" emptyIncome "2026-01-01 00:00:01").2 ∧
    (analyzeGrossMargin "600519" emptyIncome "2026-01-01 00:00:00").1 =
      (analyzeGrossMargin "600519" emptyIncome "2026-01-01 00:00:01").1 := by
  constructor
  · decide
  · rfl

/-- **C8 amended.** The result table of a metric module is a pure function
of the input table alone — re-running at any two generation instants yields
an identical table — and the report text is identical exactly when it is
rendered at the same generation timestamp, which is interpolated into the
report header. -/
theorem gross_margin_table_deterministic (stockCode : String) (income : Table)
    (t1 t2 : String) :
    (analyzeGrossMargin stockCode income t1).1 =
      (analyzeGrossMargin stockCode income t2).1 ∧
    (analyzeGrossMargin stockCode income t1).2 =
      grossMarginReport stockCode (grossMarginTable income) t1 :=
  ⟨rfl, rfl⟩

/-- **C10.** The Beneish module never produces a row for the earliest
available reporting period: `calculate_mscore` returns nothing at index 0
and the all-periods loop starts at index 1, so on `n` income-statement
periods the result table has at most `n − 1` rows. -/
theorem beneish_skips_earliest_period (asset income cashflow : Table) :
    calculateMscore asset income cashflow 0 = none ∧
    (calculateAllPeriods asset income cashflow).length ≤ income.rows.length - 1 := by
  constructor
  · rfl
  · unfold calculateAllPeriods
    cases hc : getColumn income "报告日" "Report Date" with
    | none => simp
    | some dateCol =>
      simp only []
      refine le_trans (List.length_filterMap_le _ _) ?_
      rw [List.length_drop, List.length_range]

end StockToolThm
